import Mathlib

/-!
Verification of the grizzle-kit schema-extraction and cross-dialect
type-mapping pipeline, shallowly embedded from the Go sources.

Conventions of the embedding:
* Go `int` becomes `Int`; Go `*int` becomes `Option Int`.
* Go panics become `Except` errors with a dedicated error type.
* Go maps and sparse slices become association lists with an explicit
  lookup function.
-/

/-- Go `strings.ToUpper`, restricted to ASCII case mapping (every base SQL
type name in the mapping tables is ASCII, where the two agree). -/
def goToUpper (s : String) : String := ⟨s.data.map Char.toUpper⟩

/-- Contiguous-sublist test on character lists: `containsList sub l` is true
when `sub` occurs contiguously inside `l`.  The empty sublist is contained
in everything, as in Go. -/
def containsList (sub : List Char) : List Char → Bool
  | [] => sub.isEmpty
  | c :: t => sub.isPrefixOf (c :: t) || containsList sub t

/-- Go `strings.Contains`. -/
def goContains (s sub : String) : Bool := containsList sub.data s.data

/-- Go `strings.Trim(s, cutset)` for a single-character cutset: removes all
leading and trailing occurrences of `c`. -/
def goTrimChar (s : String) (c : Char) : String :=
  ⟨((s.data.dropWhile (· = c)).reverse.dropWhile (· = c)).reverse⟩

/-- Go `strings.HasSuffix`. -/
def goHasSuffix (s sfx : String) : Bool := decide (sfx.data <:+ s.data)

/-- Go `strings.TrimSuffix`: removes one trailing occurrence of the suffix
when present. -/
def goTrimSuffix (s sfx : String) : String :=
  if goHasSuffix s sfx then ⟨s.data.take (s.data.length - sfx.data.length)⟩ else s

/-- Database flavors, from the `Flavor` enumeration of the mapping and
flavors packages. -/
inductive Flavor where
  | MySQL
  | PostgreSQL
  | SQLite
  | SQLServer
  | CQL
  | ClickHouse
  | Presto
  | Oracle
  | Informix
deriving DecidableEq

/-- Abstract column type codes.  In the Go sources `ColumnType` is an `int`;
the shared constants occupy 0..22 by `iota`. -/
abbrev ColumnType := Int

def ColumnTypeVarchar : ColumnType := 0

def ColumnTypeChar : ColumnType := 1

def ColumnTypeText : ColumnType := 2

def ColumnTypeTinyInt : ColumnType := 3

def ColumnTypeSmallInt : ColumnType := 4

def ColumnTypeInt : ColumnType := 5

def ColumnTypeBigInt : ColumnType := 6

def ColumnTypeBoolean : ColumnType := 7

def ColumnTypeReal : ColumnType := 8

def ColumnTypeDouble : ColumnType := 9

def ColumnTypeDecimal : ColumnType := 10

def ColumnTypeDate : ColumnType := 11

def ColumnTypeTime : ColumnType := 12

def ColumnTypeDateTime : ColumnType := 13

def ColumnTypeTimestamp : ColumnType := 14

def ColumnTypeBlob : ColumnType := 15

def ColumnTypeJson : ColumnType := 16

def ColumnTypeUuid : ColumnType := 17

def ColumnTypeBit : ColumnType := 18

def ColumnTypeBinary : ColumnType := 19

def ColumnTypeVarbinary : ColumnType := 20

def ColumnTypeMoney : ColumnType := 21

def ColumnTypeXml : ColumnType := 22

/-- The shared abstract types (the VARCHAR..XML band common to all
dialects). -/
def sharedColumnTypes : List ColumnType :=
  [ColumnTypeVarchar, ColumnTypeChar, ColumnTypeText, ColumnTypeTinyInt,
   ColumnTypeSmallInt, ColumnTypeInt, ColumnTypeBigInt, ColumnTypeBoolean,
   ColumnTypeReal, ColumnTypeDouble, ColumnTypeDecimal, ColumnTypeDate,
   ColumnTypeTime, ColumnTypeDateTime, ColumnTypeTimestamp, ColumnTypeBlob,
   ColumnTypeJson, ColumnTypeUuid, ColumnTypeBit, ColumnTypeBinary,
   ColumnTypeVarbinary, ColumnTypeMoney, ColumnTypeXml]

/-- Association-list lookup keyed by abstract type code, mirroring a Go map
lookup (`t, ok := m[ct]`). -/
def lookupType : List (ColumnType × String) → ColumnType → Option String
  | [], _ => none
  | (k, v) :: t, n => if n = k then some v else lookupType t n

/-- Modelled from the spec: the per-dialect rows of `typeMappings`.  The
repository file carries only the literal `/* full mapping copied from
internal */` in place of the map entries, so the concrete base SQL type
strings are not present under the sources.  Per the spec, every dialect
provides an entry for every shared abstract type; the strings below follow
the spec's explicit hints (a MONEY-named base type for the dialects with a
native money type, BYTEA/BLOB-style large binary names that ignore length,
and a BIT base type remapped to VARBIT on Presto). -/
def typeMappings (f : Flavor) : ColumnType → Option String :=
  lookupType <| match f with
  | .MySQL =>
      [(0, "VARCHAR"), (1, "CHAR"), (2, "TEXT"), (3, "TINYINT"),
       (4, "SMALLINT"), (5, "INT"), (6, "BIGINT"), (7, "BOOLEAN"),
       (8, "REAL"), (9, "DOUBLE"), (10, "DECIMAL"), (11, "DATE"),
       (12, "TIME"), (13, "DATETIME"), (14, "TIMESTAMP"), (15, "BLOB"),
       (16, "JSON"), (17, "CHAR(36)"), (18, "BIT"), (19, "BINARY"),
       (20, "VARBINARY"), (21, "DECIMAL"), (22, "TEXT")]
  | .PostgreSQL =>
      [(0, "VARCHAR"), (1, "CHAR"), (2, "TEXT"), (3, "SMALLINT"),
       (4, "SMALLINT"), (5, "INTEGER"), (6, "BIGINT"), (7, "BOOLEAN"),
       (8, "REAL"), (9, "DOUBLE PRECISION"), (10, "DECIMAL"), (11, "DATE"),
       (12, "TIME"), (13, "TIMESTAMP"), (14, "TIMESTAMP"), (15, "BYTEA"),
       (16, "JSON"), (17, "UUID"), (18, "BIT"), (19, "BYTEA"),
       (20, "BYTEA"), (21, "MONEY"), (22, "XML")]
  | .SQLite =>
      [(0, "TEXT"), (1, "TEXT"), (2, "TEXT"), (3, "INTEGER"),
       (4, "INTEGER"), (5, "INTEGER"), (6, "INTEGER"), (7, "INTEGER"),
       (8, "REAL"), (9, "REAL"), (10, "NUMERIC"), (11, "TEXT"),
       (12, "TEXT"), (13, "TEXT"), (14, "TEXT"), (15, "BLOB"),
       (16, "TEXT"), (17, "TEXT"), (18, "INTEGER"), (19, "BLOB"),
       (20, "BLOB"), (21, "NUMERIC"), (22, "TEXT")]
  | .SQLServer =>
      [(0, "VARCHAR"), (1, "CHAR"), (2, "TEXT"), (3, "TINYINT"),
       (4, "SMALLINT"), (5, "INT"), (6, "BIGINT"), (7, "BIT"),
       (8, "REAL"), (9, "FLOAT"), (10, "DECIMAL"), (11, "DATE"),
       (12, "TIME"), (13, "DATETIME"), (14, "DATETIME2"), (15, "VARBINARY(MAX)"),
       (16, "NVARCHAR(MAX)"), (17, "UNIQUEIDENTIFIER"), (18, "BIT"), (19, "BINARY"),
       (20, "VARBINARY"), (21, "MONEY"), (22, "XML")]
  | .CQL =>
      [(0, "TEXT"), (1, "TEXT"), (2, "TEXT"), (3, "TINYINT"),
       (4, "SMALLINT"), (5, "INT"), (6, "BIGINT"), (7, "BOOLEAN"),
       (8, "FLOAT"), (9, "DOUBLE"), (10, "DECIMAL"), (11, "DATE"),
       (12, "TIME"), (13, "TIMESTAMP"), (14, "TIMESTAMP"), (15, "BLOB"),
       (16, "TEXT"), (17, "UUID"), (18, "BOOLEAN"), (19, "BLOB"),
       (20, "BLOB"), (21, "DECIMAL"), (22, "TEXT")]
  | .ClickHouse =>
      [(0, "String"), (1, "String"), (2, "String"), (3, "Int8"),
       (4, "Int16"), (5, "Int32"), (6, "Int64"), (7, "Bool"),
       (8, "Float32"), (9, "Float64"), (10, "Decimal"), (11, "Date"),
       (12, "String"), (13, "DateTime"), (14, "DateTime"), (15, "String"),
       (16, "String"), (17, "UUID"), (18, "UInt8"), (19, "String"),
       (20, "String"), (21, "Decimal"), (22, "String")]
  | .Presto =>
      [(0, "VARCHAR"), (1, "CHAR"), (2, "VARCHAR"), (3, "TINYINT"),
       (4, "SMALLINT"), (5, "INTEGER"), (6, "BIGINT"), (7, "BOOLEAN"),
       (8, "REAL"), (9, "DOUBLE"), (10, "DECIMAL"), (11, "DATE"),
       (12, "TIME"), (13, "TIMESTAMP"), (14, "TIMESTAMP"), (15, "VARBINARY"),
       (16, "JSON"), (17, "UUID"), (18, "BIT"), (19, "VARBINARY"),
       (20, "VARBINARY"), (21, "DECIMAL"), (22, "VARCHAR")]
  | .Oracle =>
      [(0, "VARCHAR2"), (1, "CHAR"), (2, "CLOB"), (3, "NUMBER"),
       (4, "NUMBER"), (5, "NUMBER"), (6, "NUMBER"), (7, "NUMBER"),
       (8, "BINARY_FLOAT"), (9, "BINARY_DOUBLE"), (10, "NUMBER"), (11, "DATE"),
       (12, "DATE"), (13, "DATE"), (14, "TIMESTAMP"), (15, "BLOB"),
       (16, "CLOB"), (17, "RAW(16)"), (18, "NUMBER"), (19, "RAW"),
       (20, "RAW"), (21, "NUMBER"), (22, "XMLTYPE")]
  | .Informix =>
      [(0, "VARCHAR"), (1, "CHAR"), (2, "TEXT"), (3, "SMALLINT"),
       (4, "SMALLINT"), (5, "INTEGER"), (6, "BIGINT"), (7, "BOOLEAN"),
       (8, "SMALLFLOAT"), (9, "FLOAT"), (10, "DECIMAL"), (11, "DATE"),
       (12, "DATETIME"), (13, "DATETIME"), (14, "DATETIME"), (15, "BYTE"),
       (16, "TEXT"), (17, "CHAR(36)"), (18, "BOOLEAN"), (19, "BYTE"),
       (20, "BYTE"), (21, "MONEY"), (22, "TEXT")]

/-- Failure modes of the resolution engine.  In the Go sources these are
panics; `unsupportedCombination` is the panic for a missing abstract-type
entry in a dialect's row, `unsupportedMultiBitField` the panic for a
multi-bit field on a single-bit dialect.  (The Go panic for an unknown
flavor is unreachable: the map carries a row for all nine flavors.) -/
inductive MappingError where
  | unsupportedCombination
  | unsupportedMultiBitField
deriving DecidableEq

/-- Embedding of `getBaseSQLType`: retrieve the base SQL type for the
abstract type, failing when the dialect row has no entry. -/
def getBaseSQLType (flavor : Flavor) (ct : ColumnType) : Except MappingError String :=
  match typeMappings flavor ct with
  | some t => .ok t
  | none => .error .unsupportedCombination

/-- Embedding of the `Column[T]` struct shared by the types and mapping
packages.  The Go field `Type` (the manual SQL type override) is named
`TypeOverride` here because `Type` is reserved in Lean. -/
structure Column (T : Type) where
  ParentAlias : String
  Name : String
  TypeOverride : String
  AbstractType : ColumnType
  Default : T
  HasDefault : Bool
  AutoIncrement : Bool
  Length : Option Int
  Precision : Option Int
  Scale : Option Int
deriving DecidableEq

/-- Embedding of `Column.WithAlias`: the Go method copies the column value
(`newCol := *c`) and sets `ParentAlias` on the copy, leaving the receiver
untouched; the functional record update is the exact pure counterpart. -/
def Column.WithAlias {T : Type} (c : Column T) (a : String) : Column T :=
  { c with ParentAlias := a }

/-- Embedding of `GetSQLType`: returns the full SQL type string for a
column on a flavor, including parameters.  The Go function extracts
`GetType/GetAbstractType/GetLength/GetPrecision/GetScale` through an
interface assertion; here the fields are read directly. -/
def GetSQLType {T : Type} (flavor : Flavor) (col : Column T) : Except MappingError String :=
  let colType := col.TypeOverride
  let abstractType := col.AbstractType
  let length := col.Length
  let precision := col.Precision
  let scale := col.Scale
  if colType ≠ "" then .ok colType
  else
    match getBaseSQLType flavor abstractType with
    | .error e => .error e
    | .ok base =>
      if abstractType = ColumnTypeVarchar ∨ abstractType = ColumnTypeChar ∨
         abstractType = ColumnTypeBinary ∨ abstractType = ColumnTypeVarbinary ∨
         abstractType = ColumnTypeBit then
        let defaultLength : Int :=
          if abstractType = ColumnTypeVarchar ∨ abstractType = ColumnTypeVarbinary then 255
          else if abstractType = ColumnTypeChar ∨ abstractType = ColumnTypeBinary ∨
                  abstractType = ColumnTypeBit then 1
          else 0
        let colLength0 := match length with | some l => l | none => defaultLength
        let colLength := if colLength0 = 0 then defaultLength else colLength0
        if colLength > 0 then
          if abstractType = ColumnTypeBit then
            match flavor with
            | .MySQL | .PostgreSQL => .ok (base ++ "(" ++ toString colLength ++ ")")
            | .Presto => .ok ("VARBIT" ++ "(" ++ toString colLength ++ ")")
            | .SQLServer =>
                if colLength = 1 then .ok base else .error .unsupportedMultiBitField
            | _ =>
                if colLength > 1 then .error .unsupportedMultiBitField else .ok base
          else if abstractType = ColumnTypeBinary ∨ abstractType = ColumnTypeChar then
            match flavor with
            | .MySQL | .SQLServer | .Oracle | .PostgreSQL | .Presto | .Informix =>
                .ok (base ++ "(" ++ toString colLength ++ ")")
            | _ => .ok base
          else
            match flavor with
            | .MySQL | .SQLServer | .Oracle | .PostgreSQL | .Presto | .Informix =>
                .ok (base ++ "(" ++ toString colLength ++ ")")
            | _ => .ok base
        else .ok base
      else if abstractType = ColumnTypeDecimal ∨ abstractType = ColumnTypeMoney then
        let precisionDefault : Int := if abstractType = ColumnTypeMoney then 19 else 10
        let scaleDefault : Int := if abstractType = ColumnTypeMoney then 4 else 2
        let colPrecision := match precision with | some p => p | none => precisionDefault
        let colScale := match scale with | some s => s | none => scaleDefault
        let upperBase := goToUpper base
        if goContains upperBase "MONEY" then .ok base
        else .ok (base ++ "(" ++ toString colPrecision ++ "," ++ toString colScale ++ ")")
      else if abstractType = ColumnTypeUuid then
        if goContains base "(36)" then .ok base else .ok base
      else .ok base

deriving instance DecidableEq for Except

/-- Test fixture: a column declaration with no explicit override, carrying
the given abstract type and optional length/precision/scale. -/
def testColumn (ct : ColumnType) (len prec sc : Option Int) : Column Unit :=
  { ParentAlias := "", Name := "c", TypeOverride := "", AbstractType := ct,
    Default := (), HasDefault := false, AutoIncrement := false,
    Length := len, Precision := prec, Scale := sc }

/-- Association-list lookup keyed by a natural-number slice index,
mirroring reads from the sparse `names` slice of the types package. -/
def lookupStr : List (Nat × String) → Nat → Option String
  | [], _ => none
  | (k, v) :: t, n => if n = k then some v else lookupStr t n

/-- The occupied entries of the `names` slice built by the `String` method
of the types-package `ColumnType`: exactly the index/value assignments of
the source, in source order.  Every other index below 8014 holds the empty
string. -/
def namesEntries : List (Nat × String) :=
  [(0, "VARCHAR"), (1, "CHAR"), (2, "TEXT"), (3, "TINYINT"),
   (4, "SMALLINT"), (5, "INT"), (6, "BIGINT"), (7, "BOOLEAN"),
   (8, "REAL"), (9, "DOUBLE"), (10, "DECIMAL"), (11, "DATE"),
   (12, "TIME"), (13, "DATETIME"), (14, "TIMESTAMP"), (15, "BLOB"),
   (16, "JSON"), (17, "UUID"), (18, "BIT"), (19, "BINARY"),
   (20, "VARBINARY"), (21, "MONEY"), (22, "XML"),
   (1000, "JSONB"), (1001, "HSTORE"), (1002, "TSVECTOR"), (1003, "MONEY"),
   (1004, "INTERVAL"), (1005, "INET"), (1006, "MACADDR"), (1007, "MACADDR8"),
   (1008, "BIT"), (1009, "VARBIT"), (1010, "BOX"), (1011, "CIRCLE"),
   (1012, "LINE"), (1013, "LSEG"), (1014, "PATH"), (1015, "POLYGON"),
   (1016, "TSQUERY"), (1017, "JSONPATH"), (1018, "XML"), (1019, "ARRAY"),
   (1020, "RANGE"), (1021, "MULTIRANGE"), (1022, "PG_LSN"), (1023, "PG_SNAPSHOT"),
   (2000, "SET"), (2001, "ENUM"), (2002, "POINT"), (2003, "TINYTEXT"),
   (2004, "MEDIUMTEXT"), (2005, "LONGTEXT"), (2006, "TINYBLOB"),
   (2007, "MEDIUMBLOB"), (2008, "LONGBLOB"), (2009, "YEAR"),
   (2010, "GEOMETRY"), (2011, "LINESTRING"), (2012, "POLYGON"),
   (2013, "MULTIPOINT"), (2014, "MULTILINESTRING"), (2015, "MULTIPOLYGON"),
   (2016, "GEOMETRYCOLLECTION"),
   (3000, "XML"), (3001, "GEOGRAPHY"), (3002, "GEOMETRY"), (3003, "HIERARCHYID"),
   (3004, "UNIQUEIDENTIFIER"), (3005, "IMAGE"), (3006, "NTEXT"),
   (3007, "SQL_VARIANT"), (3008, "TIMESTAMP"), (3009, "MONEY"),
   (3010, "SMALLMONEY"), (3011, "DATETIME2"), (3012, "DATETIMEOFFSET"),
   (3013, "SMALLDATETIME"),
   (4000, "COUNTER"), (4001, "DURATION"), (4002, "INET"), (4003, "LIST"),
   (4004, "MAP"), (4005, "SET"), (4006, "TUPLE"), (4007, "VECTOR"),
   (5000, "LowCardinality"), (5001, "Nullable"), (5002, "Array"), (5003, "Map"),
   (5004, "Tuple"), (5005, "Nested"), (5006, "Enum8"), (5007, "Enum16"),
   (5008, "Date32"), (5009, "DateTime64"), (5010, "IPv4"), (5011, "IPv6"),
   (5012, "Object(\x27json\x27)"), (5013, "Decimal32"), (5014, "Decimal64"),
   (5015, "Decimal128"), (5016, "Decimal256"), (5017, "AggregateFunction"),
   (5018, "SimpleAggregateFunction"),
   (6000, "ROW"), (6001, "ARRAY"), (6002, "MAP"),
   (6003, "INTERVAL YEAR TO MONTH"), (6004, "INTERVAL DAY TO SECOND"),
   (6005, "IPADDRESS"), (6006, "GEOMETRY"), (6007, "BING_TILE"),
   (6008, "HYPERLOGLOG"), (6009, "P4HYPERLOGLOG"), (6010, "QDIGEST"),
   (6011, "TDIGEST"), (6012, "BARCODE"), (6013, "TIME WITH TIME ZONE"),
   (6014, "TIMESTAMP WITH TIME ZONE"),
   (7000, "NCLOB"), (7001, "RAW"), (7002, "BINARY_FLOAT"), (7003, "BINARY_DOUBLE"),
   (7004, "INTERVAL YEAR TO MONTH"), (7005, "INTERVAL DAY TO SECOND"),
   (7006, "UROWID"), (7007, "ANYDATA"), (7008, "ANYTYPE"), (7009, "ANYDATASET"),
   (7010, "XMLTYPE"), (7011, "URITYPE"), (7012, "DBURITYPE"), (7013, "XDBURITYPE"),
   (7014, "HTTPURITYPE"), (7015, "SDO_GEOMETRY"), (7016, "SDO_TOPO_GEOMETRY"),
   (7017, "SDO_GEORASTER"),
   (8000, "LVARCHAR"), (8001, "BYTE"), (8002, "MONEY"), (8003, "SERIAL"),
   (8004, "SERIAL8"), (8005, "BIGSERIAL"), (8006, "CLOB"), (8007, "INTERVAL"),
   (8008, "LIST"), (8009, "MULTISET"), (8010, "SET"), (8011, "ROW")]

/-- Value of the `names` slice at a nonnegative index: the assigned string
for occupied indices, the zero value `""` elsewhere. -/
def namesAt (n : Nat) : String := (lookupStr namesEntries n).getD ""

/-- Go runtime panics reachable from the embedded code. -/
inductive GoPanic where
  | indexOutOfRange
deriving DecidableEq

/-- Embedding of the types-package `(ColumnType).String` method.  The Go
method allocates `names := make([]string, 8014)`, fills the occupied
entries, and evaluates `int(ct) < len(names) && names[ct] != ""`.  For a
negative receiver the first conjunct holds and the slice read `names[ct]`
panics with an index-out-of-range runtime error, which the embedding makes
explicit. -/
def columnTypeString (ct : Int) : Except GoPanic String :=
  if ct < 8014 then
    if ct < 0 then .error .indexOutOfRange
    else if namesAt ct.toNat ≠ "" then .ok (namesAt ct.toNat)
    else .ok "UNKNOWN"
  else .ok "UNKNOWN"

/-- The reserved numeric bands documented in the header comment of the
types-package `ColumnType` declaration: shared 0-27, PostgreSQL 1000-1025,
MySQL 2000-2019, SQL Server 3000-3015, CQL 4000-4009, ClickHouse 5000-5019,
Presto 6000-6015, Oracle 7000-7019, Informix 8000-8013. -/
def inReservedBands (i : Int) : Prop :=
  (0 ≤ i ∧ i ≤ 27) ∨ (1000 ≤ i ∧ i ≤ 1025) ∨ (2000 ≤ i ∧ i ≤ 2019) ∨
  (3000 ≤ i ∧ i ≤ 3015) ∨ (4000 ≤ i ∧ i ≤ 4009) ∨ (5000 ≤ i ∧ i ≤ 5019) ∨
  (6000 ≤ i ∧ i ≤ 6015) ∨ (7000 ≤ i ∧ i ≤ 7019) ∨ (8000 ≤ i ∧ i ≤ 8013)

instance (i : Int) : Decidable (inReservedBands i) := by
  unfold inReservedBands
  infer_instance

/-- The reserved bands, restated over slice indices. -/
def inReservedBandsN (n : Nat) : Prop :=
  n ≤ 27 ∨ (1000 ≤ n ∧ n ≤ 1025) ∨ (2000 ≤ n ∧ n ≤ 2019) ∨
  (3000 ≤ n ∧ n ≤ 3015) ∨ (4000 ≤ n ∧ n ≤ 4009) ∨ (5000 ≤ n ∧ n ≤ 5019) ∨
  (6000 ≤ n ∧ n ≤ 6015) ∨ (7000 ≤ n ∧ n ≤ 7019) ∨ (8000 ≤ n ∧ n ≤ 8013)

instance (n : Nat) : Decidable (inReservedBandsN n) := by
  unfold inReservedBandsN
  infer_instance

/-- PostgreSQL-specific abstract type constants as Go computes them.  In
the source these constants share one `const` block with the shared types,
so `iota` continues from 23 at the line `ColumnTypePostgresJsonb ColumnType
= 1000 + iota`: the block yields 1023..1046, not the documented 1000..1025
band. -/
def ColumnTypePostgresJsonb : ColumnType := 1000 + 23

def ColumnTypePostgresHstore : ColumnType := 1000 + 24

def ColumnTypePostgresTsVector : ColumnType := 1000 + 25

def ColumnTypePostgresMoney : ColumnType := 1000 + 26

def ColumnTypePostgresInterval : ColumnType := 1000 + 27

def ColumnTypePostgresInet : ColumnType := 1000 + 28

def ColumnTypePostgresMacaddr : ColumnType := 1000 + 29

def ColumnTypePostgresMacaddr8 : ColumnType := 1000 + 30

def ColumnTypePostgresBit : ColumnType := 1000 + 31

def ColumnTypePostgresVarbit : ColumnType := 1000 + 32

def ColumnTypePostgresBox : ColumnType := 1000 + 33

def ColumnTypePostgresCircle : ColumnType := 1000 + 34

def ColumnTypePostgresLine : ColumnType := 1000 + 35

def ColumnTypePostgresLseg : ColumnType := 1000 + 36

def ColumnTypePostgresPath : ColumnType := 1000 + 37

def ColumnTypePostgresPolygon : ColumnType := 1000 + 38

def ColumnTypePostgresTsquery : ColumnType := 1000 + 39

def ColumnTypePostgresJsonpath : ColumnType := 1000 + 40

def ColumnTypePostgresXml : ColumnType := 1000 + 41

def ColumnTypePostgresArray : ColumnType := 1000 + 42

def ColumnTypePostgresRange : ColumnType := 1000 + 43

def ColumnTypePostgresMultirange : ColumnType := 1000 + 44

def ColumnTypePostgresPgLsn : ColumnType := 1000 + 45

def ColumnTypePostgresPgSnapshot : ColumnType := 1000 + 46

/-- The flavors for which `GetSQLType` appends a parenthesized length for
the character/binary categories (the case list of the inner flavor switch). -/
def lengthParamFlavors : List Flavor :=
  [.MySQL, .SQLServer, .Oracle, .PostgreSQL, .Presto, .Informix]

/-- Kinds of Go literal tokens the extractor inspects. -/
inductive LitKind where
  | intLit
  | floatLit
  | strLit
  | charLit
deriving DecidableEq

/-- Shallow embedding of the Go AST expressions the extractor walks.  A
selector always carries the name of its receiver identifier: selectors with
a non-identifier receiver never match any branch of the source and behave
exactly like `other`. -/
inductive GoExpr where
  | basicLit (kind : LitKind) (value : String)
  | ident (name : String)
  | selector (x : String) (sel : String)
  | indexExpr (x : GoExpr)
  | call (fn : GoExpr) (args : List GoExpr)
  | other

/-- Dynamic values produced by `parseDefaultValue` (the Go function returns
`interface{}`).  A parsed float is kept as its source text: no claim
inspects the numeric value of a float default. -/
inductive GoValue where
  | intVal (i : Int)
  | floatVal (raw : String)
  | strVal (s : String)
  | charVal (s : String)
  | boolVal (b : Bool)
  | nilVal
deriving DecidableEq

/-- Embedding of the generator's `ColumnInfo` struct. -/
structure ColumnInfo where
  Name : String
  GoType : String
  SQLType : String
  AbstractType : String
  AutoIncrement : Bool
  HasDefault : Bool
  DefaultValue : GoValue
  Length : Option Int
  Precision : Option Int
  Scale : Option Int
deriving DecidableEq

/-- Lookup in the fixed constructor-name table of `getTypeInfo`. -/
def lookupInfo : List (String × String × String × String) → String →
    Option (String × String × String)
  | [], _ => none
  | (k, a, b, c) :: t, n => if n = k then some (a, b, c) else lookupInfo t n

/-- The fixed `typeMap` of `getTypeInfo`: constructor name to Go type, SQL
type name and abstract type constant name. -/
def typeInfoTable : List (String × String × String × String) :=
  [("Varchar", "string", "Varchar", "ColumnTypeVarchar"),
   ("Char", "string", "Char", "ColumnTypeChar"),
   ("Text", "string", "Text", "ColumnTypeText"),
   ("TinyInt", "int8", "TinyInt", "ColumnTypeTinyInt"),
   ("SmallInt", "int16", "SmallInt", "ColumnTypeSmallInt"),
   ("Int", "int32", "Int", "ColumnTypeInt"),
   ("BigInt", "int64", "BigInt", "ColumnTypeBigInt"),
   ("Boolean", "bool", "Boolean", "ColumnTypeBoolean"),
   ("Real", "float32", "Real", "ColumnTypeReal"),
   ("Double", "float64", "Double", "ColumnTypeDouble"),
   ("Decimal", "string", "Decimal", "ColumnTypeDecimal"),
   ("Date", "time.Time", "Date", "ColumnTypeDate"),
   ("Time", "time.Time", "Time", "ColumnTypeTime"),
   ("DateTime", "time.Time", "DateTime", "ColumnTypeDateTime"),
   ("Timestamp", "time.Time", "Timestamp", "ColumnTypeTimestamp"),
   ("Blob", "[]byte", "Blob", "ColumnTypeBlob"),
   ("Json", "string", "Json", "ColumnTypeJson"),
   ("Uuid", "string", "Uuid", "ColumnTypeUuid"),
   ("Bit", "int64", "Bit", "ColumnTypeBit"),
   ("Binary", "[]byte", "Binary", "ColumnTypeBinary"),
   ("Varbinary", "[]byte", "Varbinary", "ColumnTypeVarbinary"),
   ("Money", "string", "Money", "ColumnTypeMoney"),
   ("Xml", "string", "Xml", "ColumnTypeXml")]

/-- Embedding of `getTypeInfo`: a recognized constructor name yields its
table triple, an unrecognized one the fallback triple. -/
def getTypeInfo (funcName : String) : String × String × String :=
  match lookupInfo typeInfoTable funcName with
  | some v => v
  | none => ("interface\x7b\x7d", "Unknown", "ColumnTypeUnknown")

/-- Embedding of the generator's `parseInt` (`fmt.Sscanf` with verb %d): an
optional sign followed by at least one decimal digit; the scan reads the
leading decimal number and anything else fails. -/
def parseIntGen (s : String) : Option Int :=
  let signed : Bool × List Char :=
    match s.data with
    | '-' :: r => (true, r)
    | '+' :: r => (false, r)
    | r => (false, r)
  let ds := signed.2.takeWhile Char.isDigit
  if ds.isEmpty then none
  else
    let n : Nat := ds.foldl (fun a c => a * 10 + (c.toNat - 48)) 0
    some (if signed.1 then -(n : Int) else (n : Int))

/-- Embedding of the generator's `parseFloat` acceptance (`fmt.Sscanf` with
verb %f), used only for its success/failure outcome: an optional sign
followed by at least one digit, optionally continuing with a decimal
point and digits. -/
def parseFloatOk (s : String) : Bool :=
  let body : List Char :=
    match s.data with
    | '-' :: r => r
    | '+' :: r => r
    | r => r
  match body with
  | [] => false
  | c :: _ => c.isDigit

/-- Embedding of `parseDefaultValue`: turns a literal expression into the
dynamic default value, yielding `nil` for anything unrecognized or
malformed.  The Go signature also receives the column's Go type string,
which the body never uses. -/
def parseDefaultValue (expr : GoExpr) (goType : String) : GoValue :=
  let _ := goType
  match expr with
  | .basicLit .intLit v =>
      match parseIntGen v with
      | some n => .intVal n
      | none => .nilVal
  | .basicLit .floatLit v => if parseFloatOk v then .floatVal v else .nilVal
  | .basicLit .strLit v => .strVal (goTrimChar v '"')
  | .basicLit .charLit v => .charVal (goTrimChar v '\x27')
  | .ident n =>
      if n = "true" then .boolVal true
      else if n = "false" then .boolVal false
      else .nilVal
  | _ => .nilVal

/-- Mutable state of the option loop inside `parseColumnCall`. -/
structure OptState where
  sqlType : String
  autoIncrement : Bool
  hasDefault : Bool
  defaultValue : GoValue
  length : Option Int
  precision : Option Int
  scale : Option Int
deriving DecidableEq

/-- Resolution of an option call's callee to a bare function name: a direct
identifier, a generic instantiation (index expression) over an identifier
or a package-qualified selector, or a package-qualified selector; anything
else leaves the name empty. -/
def optionFuncName (pkgAlias : String) (fn : GoExpr) : String :=
  match fn with
  | .ident n => n
  | .indexExpr (.ident n) => n
  | .indexExpr (.selector x sel) => if x = pkgAlias then sel else ""
  | .selector x sel => if x = pkgAlias then sel else ""
  | _ => ""

/-- One iteration of the option loop of `parseColumnCall`: dispatch on the
resolved option-constructor name and update the matching attribute. -/
def applyOptionCall (pkgAlias : String) (goType : String) (st : OptState)
    (fn : GoExpr) (cargs : List GoExpr) : OptState :=
  let funcName := optionFuncName pkgAlias fn
  if funcName = "WithAutoIncrement" then
    match cargs.head? with
    | some (.ident n) => { st with autoIncrement := n = "true" }
    | _ => st
  else if funcName = "WithType" then
    match cargs.head? with
    | some (.selector x sel) => if x = pkgAlias then { st with sqlType := sel } else st
    | _ => st
  else if funcName = "WithDefault" then
    let st := { st with hasDefault := true }
    match cargs.head? with
    | some e => { st with defaultValue := parseDefaultValue e goType }
    | none => st
  else if funcName = "WithLength" then
    match cargs.head? with
    | some (.basicLit _ v) =>
        match parseIntGen v with
        | some n => { st with length := some n }
        | none => st
    | _ => st
  else if funcName = "WithPrecision" then
    if cargs.length > 1 then
      let st1 :=
        match cargs.head? with
        | some (.basicLit _ v) =>
            match parseIntGen v with
            | some n => { st with precision := some n }
            | none => st
        | _ => st
      match cargs.get? 1 with
      | some (.basicLit _ v) =>
          match parseIntGen v with
          | some n => { st1 with scale := some n }
          | none => st1
      | _ => st1
    else st
  else st

/-- Embedding of `parseColumnCall` applied to a call with callee `fn` and
arguments `args`: derives the type triple from the callee, the column name
from the first argument when it is a basic literal, and folds the remaining
call arguments through the option loop.  The Go function returns a non-nil
`*ColumnInfo` on every path. -/
def parseColumnCall (pkgAlias : String) (fn : GoExpr) (args : List GoExpr) : ColumnInfo :=
  let info :=
    match fn with
    | .ident funcName => getTypeInfo funcName
    | .selector x sel => if x = pkgAlias then getTypeInfo sel else ("", "", "")
    | _ => ("", "", "")
  let goType := info.1
  let sqlType := info.2.1
  let abstractType := info.2.2
  let columnName :=
    match args.head? with
    | some (.basicLit _ v) => goTrimChar v '"'
    | _ => ""
  let st0 : OptState :=
    { sqlType := sqlType, autoIncrement := false, hasDefault := false,
      defaultValue := .nilVal, length := none, precision := none, scale := none }
  let final := (args.drop 1).foldl
    (fun st a =>
      match a with
      | .call f as => applyOptionCall pkgAlias goType st f as
      | _ => st) st0
  { Name := columnName, GoType := goType, SQLType := final.sqlType,
    AbstractType := abstractType, AutoIncrement := final.autoIncrement,
    HasDefault := final.hasDefault, DefaultValue := final.defaultValue,
    Length := final.length, Precision := final.precision, Scale := final.scale }

/-- Embedding of `parseColumns`: walk the column-list elements in order,
turning every call expression into a `ColumnInfo`.  The Go loop guards the
append with `column != nil`, but `parseColumnCall` never returns nil, so
every call element is appended; only non-call elements contribute nothing. -/
def parseColumns (pkgAlias : String) : List GoExpr → List ColumnInfo
  | [] => []
  | .call f args :: t => parseColumnCall pkgAlias f args :: parseColumns pkgAlias t
  | _ :: t => parseColumns pkgAlias t

/-- Embedding of `deriveEntityName`: strip the first matching suffix from
the ordered list Schema, Definition, Table; otherwise return the variable
name unchanged. -/
def deriveEntityName (varName : String) : String :=
  if goHasSuffix varName "Schema" then goTrimSuffix varName "Schema"
  else if goHasSuffix varName "Definition" then goTrimSuffix varName "Definition"
  else if goHasSuffix varName "Table" then goTrimSuffix varName "Table"
  else varName

lemma lookupStr_eq_none_of_not_mem (l : List (Nat × String)) (n : Nat)
    (h : ∀ kv ∈ l, kv.1 ≠ n) : lookupStr l n = none := by
  induction l with
  | nil => rfl
  | cons a t ih =>
    obtain ⟨k, v⟩ := a
    have hk : ¬ (n = k) := fun hnk => h (k, v) (List.mem_cons_self _ _) hnk.symm
    show (if n = k then some v else lookupStr t n) = none
    rw [if_neg hk]
    exact ih fun kv hkv => h kv (List.mem_cons_of_mem _ hkv)

set_option maxRecDepth 100000 in
lemma namesEntries_keys_in_bands : ∀ kv ∈ namesEntries, inReservedBandsN kv.1 := by
  decide

lemma namesAt_eq_empty_outside_bands (n : Nat) (h : ¬ inReservedBandsN n) :
    namesAt n = "" := by
  unfold namesAt
  rw [lookupStr_eq_none_of_not_mem]
  · rfl
  · intro kv hkv heq
    exact h (heq ▸ namesEntries_keys_in_bands kv hkv)

/-- C6 counterexample: at the concrete receiver value -1 the `String`
method does not return a string at all — the slice read panics — so the
method is not total over all integers. -/
theorem columnTypeString_negative_counterexample :
    columnTypeString (-1) = .error GoPanic.indexOutOfRange := by
  decide

/-- C6 (amended): for every nonnegative integer value, including values
above the highest band and in gaps between bands, the `String` method
returns a string without failing, and it returns the sentinel UNKNOWN for
every nonnegative value outside all reserved bands; a negative value,
however, makes the slice read panic with an index-out-of-range error. -/
theorem columnTypeString_total_nonneg (i : Int) (h : 0 ≤ i) :
    (columnTypeString i).isOk = true ∧
    (¬ inReservedBands i → columnTypeString i = .ok "UNKNOWN") := by
  constructor
  · unfold columnTypeString
    split
    · rw [if_neg (by omega)]
      split <;> rfl
    · rfl
  · intro hout
    have hbn : ¬ inReservedBandsN i.toNat := by
      intro hb
      apply hout
      unfold inReservedBandsN at hb
      unfold inReservedBands
      omega
    have hempty : namesAt i.toNat = "" := namesAt_eq_empty_outside_bands _ hbn
    unfold columnTypeString
    split
    · rw [if_neg (by omega), if_neg (by simp [hempty])]
    · rfl

/-- Witness for C6 (amended) at the value 9999, which lies in the gap
between the Informix band and the end of the slice. -/
theorem columnTypeString_total_nonneg_witness :
    (columnTypeString 9999).isOk = true ∧
    (¬ inReservedBands 9999 → columnTypeString 9999 = .ok "UNKNOWN") :=
  columnTypeString_total_nonneg 9999 (by decide)

/-- C7 fails on the code: the PostgreSQL constants are shifted by the
shared-block `iota`, so the JSONB constant is 1023 and its display name is
PG_SNAPSHOT rather than JSONB (the JSONB name sits at the unreferenced
index 1000); later constants such as Jsonpath (1040) display UNKNOWN, and
the block runs past the documented 1000-1025 band up to PgSnapshot = 1046. -/
theorem postgres_band_bug :
    ColumnTypePostgresJsonb = 1023 ∧
    columnTypeString ColumnTypePostgresJsonb = .ok "PG_SNAPSHOT" ∧
    columnTypeString 1000 = .ok "JSONB" ∧
    columnTypeString ColumnTypePostgresJsonpath = .ok "UNKNOWN" ∧
    ColumnTypePostgresPgSnapshot = 1046 ∧
    ¬ inReservedBands ColumnTypePostgresPgSnapshot := by
  refine ⟨by decide, by decide, by decide, by decide, by decide, by decide⟩

/-- C1: for every dialect in the closed set of supported flavors and every
shared abstract column type, the dialect's mapping row carries an entry, and
resolving a column declaration with that abstract type and no explicit
override succeeds (in particular it never fails with
`unsupportedCombination`). -/
theorem resolve_total_on_shared (f : Flavor) (ct : ColumnType)
    (h : ct ∈ sharedColumnTypes) :
    (typeMappings f ct).isSome = true ∧
    (GetSQLType f (testColumn ct none none none)).isOk = true := by
  cases f <;> fin_cases h <;> exact ⟨by decide, by decide⟩

/-- Witness for C1 at the CQL flavor and the XML shared type. -/
theorem resolve_total_on_shared_witness :
    (typeMappings Flavor.CQL ColumnTypeXml).isSome = true ∧
    (GetSQLType Flavor.CQL (testColumn ColumnTypeXml none none none)).isOk = true :=
  resolve_total_on_shared Flavor.CQL ColumnTypeXml (by decide)

/-- C2: whenever the explicit type override string of a column is set
(non-empty), `GetSQLType` returns exactly that string, for every dialect and
regardless of every other field of the declaration. -/
theorem explicit_override_precedence {T : Type} (f : Flavor) (c : Column T)
    (h : c.TypeOverride ≠ "") :
    GetSQLType f c = .ok c.TypeOverride := by
  unfold GetSQLType
  simp [h]

/-- Witness for C2: a column with override GEOGRAPHY and interfering values
in every other parameter field resolves to the override verbatim. -/
theorem explicit_override_precedence_witness :
    GetSQLType Flavor.SQLite
      ({ ParentAlias := "t", Name := "c", TypeOverride := "GEOGRAPHY",
         AbstractType := ColumnTypeBit, Default := (), HasDefault := true,
         AutoIncrement := true, Length := some 99, Precision := some 5,
         Scale := some 5 } : Column Unit)
      = .ok "GEOGRAPHY" :=
  explicit_override_precedence Flavor.SQLite _ (by decide)

/-- C3: on every dialect that supports parameterized length for the
character/binary categories, a VARCHAR column with no declared length
resolves to a string containing `(255)` (precisely the base type followed by
`(255)`), with declared length 10 to the base followed by `(10)`, and a
declared length of 0 falls back to the category default: 255 for
variable-length string/binary, 1 for fixed-length character. -/
theorem varchar_length_defaulting (f : Flavor) (hf : f ∈ lengthParamFlavors) :
    (∀ s, GetSQLType f (testColumn ColumnTypeVarchar none none none) = .ok s →
       goContains s "(255)" = true) ∧
    GetSQLType f (testColumn ColumnTypeVarchar none none none)
      = .ok (((typeMappings f ColumnTypeVarchar).getD "") ++ "(255)") ∧
    GetSQLType f (testColumn ColumnTypeVarchar (some 10) none none)
      = .ok (((typeMappings f ColumnTypeVarchar).getD "") ++ "(10)") ∧
    GetSQLType f (testColumn ColumnTypeVarchar (some 0) none none)
      = .ok (((typeMappings f ColumnTypeVarchar).getD "") ++ "(255)") ∧
    GetSQLType f (testColumn ColumnTypeVarbinary (some 0) none none)
      = .ok (((typeMappings f ColumnTypeVarbinary).getD "") ++ "(255)") ∧
    GetSQLType f (testColumn ColumnTypeChar (some 0) none none)
      = .ok (((typeMappings f ColumnTypeChar).getD "") ++ "(1)") := by
  fin_cases hf <;>
    exact ⟨fun s hs => by rw [show s = _ from (Except.ok.injEq _ _).mp hs.symm]; decide,
           by decide, by decide, by decide, by decide, by decide⟩

/-- Witness for C3 at the PostgreSQL flavor. -/
theorem varchar_length_defaulting_witness :
    (∀ s, GetSQLType Flavor.PostgreSQL (testColumn ColumnTypeVarchar none none none) = .ok s →
       goContains s "(255)" = true) ∧
    GetSQLType Flavor.PostgreSQL (testColumn ColumnTypeVarchar none none none)
      = .ok (((typeMappings Flavor.PostgreSQL ColumnTypeVarchar).getD "") ++ "(255)") ∧
    GetSQLType Flavor.PostgreSQL (testColumn ColumnTypeVarchar (some 10) none none)
      = .ok (((typeMappings Flavor.PostgreSQL ColumnTypeVarchar).getD "") ++ "(10)") ∧
    GetSQLType Flavor.PostgreSQL (testColumn ColumnTypeVarchar (some 0) none none)
      = .ok (((typeMappings Flavor.PostgreSQL ColumnTypeVarchar).getD "") ++ "(255)") ∧
    GetSQLType Flavor.PostgreSQL (testColumn ColumnTypeVarbinary (some 0) none none)
      = .ok (((typeMappings Flavor.PostgreSQL ColumnTypeVarbinary).getD "") ++ "(255)") ∧
    GetSQLType Flavor.PostgreSQL (testColumn ColumnTypeChar (some 0) none none)
      = .ok (((typeMappings Flavor.PostgreSQL ColumnTypeChar).getD "") ++ "(1)") :=
  varchar_length_defaulting Flavor.PostgreSQL (by decide)

/-- C4: a decimal column with no declared precision/scale resolves to the
base name followed by `(10,2)` (when the dialect's base name is not a
MONEY-style type); a money-category column defaults to precision 19 and
scale 4; and whenever the dialect's base name contains `MONEY`
case-insensitively, resolution returns the bare base name with no
parameters, regardless of declared precision and scale. -/
theorem decimal_money_defaulting (f : Flavor) (p s : Option Int)
    (hd : goContains (goToUpper ((typeMappings f ColumnTypeDecimal).getD "")) "MONEY" = false) :
    GetSQLType f (testColumn ColumnTypeDecimal none none none)
      = .ok (((typeMappings f ColumnTypeDecimal).getD "") ++ "(10,2)") ∧
    (goContains (goToUpper ((typeMappings f ColumnTypeMoney).getD "")) "MONEY" = false →
      GetSQLType f (testColumn ColumnTypeMoney none none none)
        = .ok (((typeMappings f ColumnTypeMoney).getD "") ++ "(19,4)")) ∧
    (goContains (goToUpper ((typeMappings f ColumnTypeMoney).getD "")) "MONEY" = true →
      GetSQLType f (testColumn ColumnTypeMoney none p s)
        = .ok ((typeMappings f ColumnTypeMoney).getD "")) := by
  cases f <;> cases p <;> cases s <;>
    exact ⟨by decide, fun h => by first | decide | exact absurd h (by decide),
           fun h => by first | rfl | exact absurd h (by decide)⟩

/-- Witness for C4: decimal defaulting on MySQL and the MONEY short-circuit
on SQL Server with declared precision and scale present. -/
theorem decimal_money_defaulting_witness :
    GetSQLType Flavor.MySQL (testColumn ColumnTypeDecimal none none none)
      = .ok (((typeMappings Flavor.MySQL ColumnTypeDecimal).getD "") ++ "(10,2)") ∧
    GetSQLType Flavor.SQLServer (testColumn ColumnTypeMoney none (some 7) (some 3))
      = .ok ((typeMappings Flavor.SQLServer ColumnTypeMoney).getD "") :=
  ⟨(decimal_money_defaulting Flavor.MySQL none none (by decide)).1,
   (decimal_money_defaulting Flavor.SQLServer (some 7) (some 3) (by decide)).2.2 (by decide)⟩

/-- C5: a bit column with length 8 fails with `unsupportedMultiBitField` on
SQL Server (single-bit representation only), resolves to the base type with
`(8)` appended on MySQL and PostgreSQL, and on Presto is remapped to the
variable-bit base name VARBIT with `(8)` appended. -/
theorem bit_length_dialect_quirks :
    GetSQLType Flavor.SQLServer (testColumn ColumnTypeBit (some 8) none none)
      = .error .unsupportedMultiBitField ∧
    GetSQLType Flavor.MySQL (testColumn ColumnTypeBit (some 8) none none)
      = .ok (((typeMappings Flavor.MySQL ColumnTypeBit).getD "") ++ "(8)") ∧
    GetSQLType Flavor.PostgreSQL (testColumn ColumnTypeBit (some 8) none none)
      = .ok (((typeMappings Flavor.PostgreSQL ColumnTypeBit).getD "") ++ "(8)") ∧
    GetSQLType Flavor.Presto (testColumn ColumnTypeBit (some 8) none none)
      = .ok "VARBIT(8)" := by
  refine ⟨by decide, by decide, by decide, by decide⟩

lemma goHasSuffix_append_self (p q : String) : goHasSuffix (p ++ q) q = true := by
  simp only [goHasSuffix, decide_eq_true_eq]
  rw [String.data_append]
  exact List.suffix_append _ _

lemma goTrimSuffix_append_self (p q : String) : goTrimSuffix (p ++ q) q = p := by
  unfold goTrimSuffix
  rw [if_pos (by rw [goHasSuffix_append_self])]
  apply congrArg String.mk
  rw [String.data_append, List.length_append, Nat.add_sub_cancel]
  exact List.take_left _ _

lemma getLast_of_suffix (r l : List Char) (h : r <:+ l) (hr : r ≠ []) :
    l.getLast? = r.getLast? := by
  obtain ⟨t, rfl⟩ := h
  exact List.getLast?_append_of_ne_nil _ hr

lemma goHasSuffix_append_ne (p q r : String) (hq : q.data ≠ []) (hr : r.data ≠ [])
    (hlast : q.data.getLast? ≠ r.data.getLast?) :
    goHasSuffix (p ++ q) r = false := by
  simp only [goHasSuffix, decide_eq_false_iff_not]
  intro hsuf
  rw [String.data_append] at hsuf
  have h1 : (p.data ++ q.data).getLast? = r.data.getLast? :=
    getLast_of_suffix _ _ hsuf hr
  have h2 : (p.data ++ q.data).getLast? = q.data.getLast? :=
    List.getLast?_append_of_ne_nil _ hq
  exact hlast ((h2.symm.trans h1))

/-- C9: the derived entity name removes exactly the first matching suffix
from the fixed order Schema, Definition, Table, without recursive
stripping, and a variable name matching none of the three suffixes is
returned unchanged. -/
theorem deriveEntityName_suffix_rule (p s : String)
    (hs : goHasSuffix s "Schema" = false)
    (hd : goHasSuffix s "Definition" = false)
    (ht : goHasSuffix s "Table" = false) :
    deriveEntityName (p ++ "Schema") = p ∧
    deriveEntityName (p ++ "Definition") = p ∧
    deriveEntityName (p ++ "Table") = p ∧
    deriveEntityName s = s := by
  refine ⟨?_, ?_, ?_, ?_⟩
  · unfold deriveEntityName
    rw [if_pos (by rw [goHasSuffix_append_self])]
    exact goTrimSuffix_append_self p "Schema"
  · unfold deriveEntityName
    rw [if_neg (by rw [goHasSuffix_append_ne p "Definition" "Schema" (by decide) (by decide)
          (by decide)]; exact Bool.false_ne_true),
        if_pos (by rw [goHasSuffix_append_self])]
    exact goTrimSuffix_append_self p "Definition"
  · unfold deriveEntityName
    rw [if_neg (by rw [goHasSuffix_append_ne p "Table" "Schema" (by decide) (by decide)
          (by decide)]; exact Bool.false_ne_true),
        if_neg (by rw [goHasSuffix_append_ne p "Table" "Definition" (by decide) (by decide)
          (by decide)]; exact Bool.false_ne_true),
        if_pos (by rw [goHasSuffix_append_self])]
    exact goTrimSuffix_append_self p "Table"
  · unfold deriveEntityName
    rw [if_neg (by rw [hs]; exact Bool.false_ne_true),
        if_neg (by rw [hd]; exact Bool.false_ne_true),
        if_neg (by rw [ht]; exact Bool.false_ne_true)]

/-- Witness for C9, including the non-recursive case: FooTableSchema loses
only the Schema suffix. -/
theorem deriveEntityName_suffix_rule_witness :
    deriveEntityName ("FooTable" ++ "Schema") = "FooTable" ∧
    deriveEntityName ("FooTable" ++ "Definition") = "FooTable" ∧
    deriveEntityName ("FooTable" ++ "Table") = "FooTable" ∧
    deriveEntityName "Foo" = "Foo" :=
  deriveEntityName_suffix_rule "FooTable" "Foo" (by decide) (by decide) (by decide)

/-- C8 fails on the code: a column-list element calling the unrecognized
name Foo is not dropped — `parseColumnCall` returns a non-nil column on
every path, so the element contributes a `ColumnInfo` carrying the fallback
type markers; only elements that are not calls contribute nothing. -/
theorem unrecognized_callee_not_dropped :
    parseColumns "types"
      [GoExpr.call (.ident "Foo") [.basicLit .strLit "\"col1\""],
       GoExpr.ident "stray",
       GoExpr.call (.ident "Int") [.basicLit .strLit "\"id\""]]
      = [{ Name := "col1", GoType := "interface\x7b\x7d", SQLType := "Unknown",
           AbstractType := "ColumnTypeUnknown", AutoIncrement := false,
           HasDefault := false, DefaultValue := .nilVal, Length := none,
           Precision := none, Scale := none },
         { Name := "id", GoType := "int32", SQLType := "Int",
           AbstractType := "ColumnTypeInt", AutoIncrement := false,
           HasDefault := false, DefaultValue := .nilVal, Length := none,
           Precision := none, Scale := none }] := by
  decide

/-- C10: `WithAlias` returns a column whose `ParentAlias` is the given
alias and whose every other field equals the corresponding field of the
receiver; the receiver itself is a value that the pure update cannot
mutate. -/
theorem withAlias_frame {T : Type} (c : Column T) (a : String) :
    (c.WithAlias a).ParentAlias = a ∧
    (c.WithAlias a).Name = c.Name ∧
    (c.WithAlias a).TypeOverride = c.TypeOverride ∧
    (c.WithAlias a).AbstractType = c.AbstractType ∧
    (c.WithAlias a).Default = c.Default ∧
    (c.WithAlias a).HasDefault = c.HasDefault ∧
    (c.WithAlias a).AutoIncrement = c.AutoIncrement ∧
    (c.WithAlias a).Length = c.Length ∧
    (c.WithAlias a).Precision = c.Precision ∧
    (c.WithAlias a).Scale = c.Scale :=
  ⟨rfl, rfl, rfl, rfl, rfl, rfl, rfl, rfl, rfl, rfl⟩

